import Mathlib

/-!
Verification of the contact-routes endpoint layer (`src/routes/contacts.py`).

The endpoint layer is embedded shallowly: each route handler becomes a Lean
function over explicit inputs, returning the HTTP response it produces, the
resulting repository state, and the trace of data-access calls it delegates.
The data-access layer (`src.repository.contacts`), the role gate
(`RoleAccess`), and the rate limiter (`RateLimiter` of `fastapi_limiter`) are
external collaborators of the module; their behaviour, where a property needs
it, is modelled from the specification's interface description.
-/

namespace ContactRoutes

/-- Modelled from the spec: the Contact entity (identifier, owning user,
first name, last name, email).  The Contact ORM model lives in
`src.database.models`, outside this module; the fields named here are the
ones this endpoint layer reads and writes. -/
structure Contact where
  id : Nat
  owner : Nat
  firstname : String
  lastname : String
  email : String
deriving Repr, DecidableEq

/-- Create payload (`ContactModel` of `src.schemas`): full payload
required by schema validation. -/
structure ContactModel where
  firstname : String
  lastname : String
  email : String
deriving Repr, DecidableEq

/-- Partial-update payload (`ContactUpdateModel` of `src.schemas`): every
field optional; an absent field leaves the stored value unchanged. -/
structure ContactUpdateModel where
  firstname : Option String
  lastname : Option String
  email : Option String
deriving Repr, DecidableEq

/-- An HTTP response as produced by a handler: a success with a status code
and a body, a 204 success with no body (the route declares
`status_code=HTTP_204_NO_CONTENT`, so the framework sends no content), or an
`HTTPException` with a status code and a detail message. -/
inductive Response (α : Type) where
  | ok (statusCode : Nat) (body : α)
  | noContent
  | error (statusCode : Nat) (detail : String)
deriving Repr, DecidableEq

/-- The status code carried by a response (`noContent` is HTTP 204). -/
def Response.statusCode {α : Type} : Response α → Nat
  | .ok s _ => s
  | .noContent => 204
  | .error s _ => s

/-- One delegated call to the data-access layer, recording exactly the
arguments the handler passes (the session handle `db` is passed to every
call and is left implicit). -/
inductive RepoCall where
  | getContactByFilter (user : Nat) (firstname lastname email : Option String)
  | getContacts (user : Nat)
  | contactsPerDays (days : Int) (user : Nat)
  | getContactById (contactId : Int) (user : Nat)
  | getContactByEmail (email : String) (user : Nat)
  | createContact (body : ContactModel) (user : Nat)
  | updateContact (body : ContactUpdateModel) (contactId : Int) (user : Nat)
  | removeContact (contactId : Int)
deriving Repr, DecidableEq

/-- The caller identity a delegated call carries, if any. -/
def RepoCall.identityPassed : RepoCall → Option Nat
  | .getContactByFilter u _ _ _ => some u
  | .getContacts u => some u
  | .contactsPerDays _ u => some u
  | .getContactById _ u => some u
  | .getContactByEmail _ u => some u
  | .createContact _ u => some u
  | .updateContact _ _ u => some u
  | .removeContact _ => none

/-- Python truthiness of an optional string (`if firstname or lastname or
email`): `None` and the empty string are falsy, every other string truthy. -/
def pyTruthy : Option String → Bool
  | none => false
  | some s => s ≠ ""

/-- Whether an optional filter string constrains a field: an absent filter
matches everything, a given filter matches the field exactly.  (The spec
leaves exact-versus-partial matching to the data-access layer; exact match
is chosen here, and no claim depends on the choice.) -/
def filterMatches (pat : Option String) (field : String) : Bool :=
  match pat with
  | none => true
  | some p => field == p

/-- Modelled from the spec: `repository.contacts.get_contact_by_filter` — the
filtered lookup, restricted to the current user's contacts. -/
def repo_get_contact_by_filter (db : List Contact) (user : Nat)
    (firstname lastname email : Option String) : List Contact :=
  db.filter fun c =>
    c.owner == user && filterMatches firstname c.firstname
      && filterMatches lastname c.lastname && filterMatches email c.email

/-- Modelled from the spec: `repository.contacts.get_contacts` — the
unfiltered lookup of all of the current user's contacts. -/
def repo_get_contacts (db : List Contact) (user : Nat) : List Contact :=
  db.filter fun c => c.owner == user

/-- Modelled from the spec: `repository.contacts.get_contact_by_id` — a
single-record lookup scoped to the caller's ownership. -/
def repo_get_contact_by_id (contactId : Int) (db : List Contact) (user : Nat) :
    Option Contact :=
  db.find? fun c => (c.id : Int) == contactId && c.owner == user

/-- Modelled from the spec: `repository.contacts.get_contact_by_email` — look
up an existing contact with the given email owned by the caller. -/
def repo_get_contact_by_email (email : String) (db : List Contact) (user : Nat) :
    Option Contact :=
  db.find? fun c => c.owner == user && c.email == email

/-- The next server-assigned identifier: one more than the largest in use
(identifiers are ≥ 1 and never reused).  Part of the spec-modelled create. -/
def nextId (db : List Contact) : Nat :=
  (db.map Contact.id).foldr max 0 + 1

/-- Modelled from the spec: `repository.contacts.create_contact` — assigns a
new identifier, sets owner to the caller, persists one new record, and
returns the created contact together with the new repository state. -/
def repo_create_contact (body : ContactModel) (db : List Contact) (user : Nat) :
    Contact × List Contact :=
  let c : Contact :=
    { id := nextId db, owner := user, firstname := body.firstname,
      lastname := body.lastname, email := body.email }
  (c, db ++ [c])

/-- Merge a partial-update payload into a stored contact: only fields present
in the payload overwrite; absent fields retain their prior values. -/
def applyUpdate (body : ContactUpdateModel) (c : Contact) : Contact :=
  { c with firstname := body.firstname.getD c.firstname,
           lastname := body.lastname.getD c.lastname,
           email := body.email.getD c.email }

/-- Modelled from the spec: `repository.contacts.update_contact` — an
update-by-id scoped to caller ownership; returns the updated contact and the
new state, or `none` (state unchanged) when no such owned contact exists. -/
def repo_update_contact (body : ContactUpdateModel) (contactId : Int)
    (db : List Contact) (user : Nat) : Option Contact × List Contact :=
  match db.find? (fun c => (c.id : Int) == contactId && c.owner == user) with
  | none => (none, db)
  | some c =>
      let c2 := applyUpdate body c
      (some c2, db.map fun x => if (x.id : Int) == contactId && x.owner == user then c2 else x)

/-- Modelled from the spec: `repository.contacts.remove_contact` — a
delete-by-id that receives only the identifier and the session (no caller
identity, hence no ownership scoping); returns the removed contact and the
new state, or `none` (state unchanged) when no record has that identifier. -/
def repo_remove_contact (contactId : Int) (db : List Contact) :
    Option Contact × List Contact :=
  match db.find? (fun c => (c.id : Int) == contactId) with
  | none => (none, db)
  | some c => (some c, db.filter fun x => (x.id : Int) != contactId)

/-- Handler of `GET /contacts/` (`get_contacts`): if any of the three query
filters is truthy, delegate to the filtered lookup, else to the unfiltered
lookup, both with the current user; raise 404 "No contacts found" when the
resulting sequence is empty (`if not contacts`), else return it with 200. -/
def get_contacts (db : List Contact) (firstname lastname email : Option String)
    (current_user : Nat) : Response (List Contact) × List RepoCall :=
  let (contacts, calls) :=
    if pyTruthy firstname || pyTruthy lastname || pyTruthy email then
      (repo_get_contact_by_filter db current_user firstname lastname email,
       [RepoCall.getContactByFilter current_user firstname lastname email])
    else
      (repo_get_contacts db current_user, [RepoCall.getContacts current_user])
  if contacts.isEmpty then
    (.error 404 "No contacts found", calls)
  else
    (.ok 200 contacts, calls)

/-- Handler of `GET /contacts/days/{days}` (`get_contacts_by_days`): delegate
to `contacts_per_days`; raise 404 "Not Found" exactly when the lookup returns
the `None` sentinel (`if contacts is None`), else return the sequence — an
empty sequence passes through as a 200 empty list.  The lookup's result is a
parameter because the repository is an external collaborator and the spec
does not fix when it returns the sentinel. -/
def get_contacts_by_days (days : Int) (current_user : Nat)
    (lookup : Option (List Contact)) : Response (List Contact) × List RepoCall :=
  let calls := [RepoCall.contactsPerDays days current_user]
  match lookup with
  | none => (.error 404 "Not Found", calls)
  | some contacts => (.ok 200 contacts, calls)

/-- Handler of `GET /contacts/contact/{contact_id}` (`get_contact_by_id`):
delegate to the ownership-scoped single-record lookup; raise 404 "Not Found"
when it returns `None`, else return the contact with 200. -/
def get_contact_by_id (contactId : Int) (db : List Contact) (current_user : Nat) :
    Response Contact × List RepoCall :=
  let calls := [RepoCall.getContactById contactId current_user]
  match repo_get_contact_by_id contactId db current_user with
  | none => (.error 404 "Not Found", calls)
  | some contact => (.ok 200 contact, calls)

/-- Handler of `POST /contacts/` (`create_contact`): pre-check the caller's
contacts for the payload's email; if one exists raise 409 with a detail
naming the email and make no create call; else delegate to create and return
the new contact (the route declares `status_code=HTTP_201_CREATED`). -/
def create_contact (body : ContactModel) (db : List Contact) (current_user : Nat) :
    Response Contact × List Contact × List RepoCall :=
  match repo_get_contact_by_email body.email db current_user with
  | some _ =>
      (.error 409 ("Contact with email:" ++ body.email ++ " already exist!"), db,
       [RepoCall.getContactByEmail body.email current_user])
  | none =>
      let (contact, db2) := repo_create_contact body db current_user
      (.ok 201 contact, db2,
       [RepoCall.getContactByEmail body.email current_user,
        RepoCall.createContact body current_user])

/-- Handler of `PATCH /contacts/{contact_id}` (`update_contact`): delegate to
the ownership-scoped update; raise 404 "Not Found" when it returns `None`,
else return the updated contact with 200. -/
def update_contact (body : ContactUpdateModel) (contactId : Int)
    (db : List Contact) (current_user : Nat) :
    Response Contact × List Contact × List RepoCall :=
  let calls := [RepoCall.updateContact body contactId current_user]
  match repo_update_contact body contactId db current_user with
  | (none, db2) => (.error 404 "Not Found", db2, calls)
  | (some contact, db2) => (.ok 200 contact, db2, calls)

/-- Handler of `DELETE /contacts/{contact_id}` (`remove_contact`): delegate
to `remove_contact(contact_id, db)` — identifier and session only, no caller
identity; raise 404 "Not Found" when it returns `None`, else succeed with
status 204 and no content (the route declares
`status_code=HTTP_204_NO_CONTENT`, so the framework sends an empty body). -/
def remove_contact (contactId : Int) (db : List Contact) (current_user : Nat) :
    Response Contact × List Contact × List RepoCall :=
  let calls := [RepoCall.removeContact contactId]
  match repo_remove_contact contactId db with
  | (none, db2) => (.error 404 "Not Found", db2, calls)
  | (some _, db2) => (.noContent, db2, calls)

/-- The `Role` enumeration of `src.database.models`: administrator,
moderator, ordinary user. -/
inductive Role where
  | admin
  | moderator
  | user
deriving Repr, DecidableEq

/-- Source: `allowed_operation_get = RoleAccess([Role.admin, Role.moderator, Role.user])`. -/
def allowed_operation_get : List Role := [Role.admin, Role.moderator, Role.user]

/-- Source: `allowed_operation_create = RoleAccess([Role.admin, Role.moderator, Role.user])`. -/
def allowed_operation_create : List Role := [Role.admin, Role.moderator, Role.user]

/-- Source: `allowed_operation_update = RoleAccess([Role.admin, Role.moderator, Role.user])`. -/
def allowed_operation_update : List Role := [Role.admin, Role.moderator, Role.user]

/-- Source: `allowed_operation_remove = RoleAccess([Role.admin])`. -/
def allowed_operation_remove : List Role := [Role.admin]

/-- Modelled from the spec: the `RoleAccess` collaborator
(`src.services.roles`) — given a caller's role and an operation's allow-list,
allow exactly when the role is a member of the allow-list. -/
def roleAccessAllows (allowed : List Role) (r : Role) : Bool :=
  allowed.contains r

/-- The six routes of the router. -/
inductive RouteName where
  | listContacts
  | listByDays
  | getById
  | createOne
  | updateOne
  | removeOne
deriving Repr, DecidableEq

/-- The role allow-list each route's dependencies name
(`Depends(allowed_operation_...)` in each decorator). -/
def roleGateOf : RouteName → List Role
  | .listContacts => allowed_operation_get
  | .listByDays => allowed_operation_get
  | .getById => allowed_operation_get
  | .createOne => allowed_operation_create
  | .updateOne => allowed_operation_update
  | .removeOne => allowed_operation_remove

/-- A rate limiter's fixed quota: `times` invocations per `seconds` window. -/
structure RateLimiterQuota where
  times : Nat
  seconds : Nat
deriving Repr, DecidableEq

/-- The rate-limiter quota each route's dependencies declare
(`Depends(RateLimiter(times=2, seconds=5))` in each decorator). -/
def rateLimiterOf : RouteName → RateLimiterQuota
  | .listContacts => { times := 2, seconds := 5 }
  | .listByDays => { times := 2, seconds := 5 }
  | .getById => { times := 2, seconds := 5 }
  | .createOne => { times := 2, seconds := 5 }
  | .updateOne => { times := 2, seconds := 5 }
  | .removeOne => { times := 2, seconds := 5 }

/-- Modelled from the spec: the rate-limiter collaborator — a sliding-window
counter keyed by identity + route.  `prev` is the arrival times (seconds) of
the earlier requests of the same identity to the same route; a request at
time `t` is allowed exactly when fewer than `quota.times` of them fall in the
window of `quota.seconds` ending at `t`. -/
def rateLimitAllows (quota : RateLimiterQuota) (prev : List Nat) (t : Nat) : Bool :=
  (prev.filter fun ti => ti ≤ t && t - ti < quota.seconds).length < quota.times

/-- The gate pipeline run before a handler body: role check, then rate-limit
check; a failing gate aborts with its own status before any data access, so
the aborted result carries an empty call trace. -/
def gated {α : Type} (roleOk rateOk : Bool)
    (handler : Response α × List RepoCall) : Response α × List RepoCall :=
  if !roleOk then (.error 403 "Operation forbidden", [])
  else if !rateOk then (.error 429 "Too Many Requests", [])
  else handler

/-- Route `GET /contacts/contact/{contact_id}`: the `contact_id` path
parameter is declared `Path(ge=1)`, so a value below 1 fails request
validation with 422 before the handler body runs (no data-access call). -/
def route_get_contact_by_id (contactId : Int) (db : List Contact)
    (current_user : Nat) : Response Contact × List RepoCall :=
  if contactId < 1 then (.error 422 "request validation failed", [])
  else get_contact_by_id contactId db current_user

/-- Route `PATCH /contacts/{contact_id}`: `contact_id` is declared
`Path(ge=1)`, so a value below 1 fails request validation with 422 before
the handler body runs (no data-access call, state unchanged). -/
def route_update_contact (body : ContactUpdateModel) (contactId : Int)
    (db : List Contact) (current_user : Nat) :
    Response Contact × List Contact × List RepoCall :=
  if contactId < 1 then (.error 422 "request validation failed", db, [])
  else update_contact body contactId db current_user

/-- Route `DELETE /contacts/{contact_id}`: `contact_id` is declared
`Path(ge=1)`, so a value below 1 fails request validation with 422 before
the handler body runs (no data-access call, state unchanged). -/
def route_remove_contact (contactId : Int) (db : List Contact)
    (current_user : Nat) : Response Contact × List Contact × List RepoCall :=
  if contactId < 1 then (.error 422 "request validation failed", db, [])
  else remove_contact contactId db current_user

/-- Route `GET /contacts/days/{days}`: `days` is declared plain `int` with no
constraint, so no request validation beyond integer parsing applies and every
integer reaches the handler body. -/
def route_get_contacts_by_days (days : Int) (current_user : Nat)
    (lookup : Option (List Contact)) : Response (List Contact) × List RepoCall :=
  get_contacts_by_days days current_user lookup

end ContactRoutes

namespace ContactRoutes

/-- C2: for the list-by-recency operation, for every caller and every days
value, the operation fails with Not-Found (404) if and only if the delegated
lookup returns the `None` sentinel; an empty sequence from the lookup is
returned as a successful (200) empty list. -/
theorem list_by_days_404_iff_none_sentinel (days : Int) (user : Nat)
    (lookup : Option (List Contact)) :
    ((get_contacts_by_days days user lookup).1.statusCode = 404 ↔ lookup = none) ∧
    (lookup = none →
      (get_contacts_by_days days user lookup).1 = Response.error 404 "Not Found") ∧
    (∀ l, lookup = some l →
      (get_contacts_by_days days user lookup).1 = Response.ok 200 l) := by
  cases lookup <;> simp [get_contacts_by_days, Response.statusCode]

/-- C2 witness: with the lookup returning an empty sequence, the response is
a successful 200 empty list, and the status is not 404. -/
theorem list_by_days_witness :
    ¬ (get_contacts_by_days 7 1 (some [])).1.statusCode = 404 ∧
      (get_contacts_by_days 7 1 (some [])).1 = Response.ok 200 [] := by
  have h := list_by_days_404_iff_none_sentinel 7 1 (some [])
  exact ⟨fun hc => by simpa using h.1.mp hc, h.2.2 [] rfl⟩

/-- C5: every caller whose role is "user" or "moderator" is denied by the
delete role gate (only "admin" is in the delete allow-list), while the get,
create, and update allow-lists admit all three roles. -/
theorem delete_gate_admin_only_others_open :
    roleAccessAllows (roleGateOf RouteName.removeOne) Role.user = false ∧
    roleAccessAllows (roleGateOf RouteName.removeOne) Role.moderator = false ∧
    roleAccessAllows (roleGateOf RouteName.removeOne) Role.admin = true ∧
    roleGateOf RouteName.removeOne = allowed_operation_remove ∧
    (∀ r : Role, roleAccessAllows allowed_operation_get r = true) ∧
    (∀ r : Role, roleAccessAllows allowed_operation_create r = true) ∧
    (∀ r : Role, roleAccessAllows allowed_operation_update r = true) := by
  refine ⟨rfl, rfl, rfl, rfl, ?_, ?_, ?_⟩ <;> intro r <;> cases r <;> rfl

/-- C10: the days path parameter is accepted as any integer — no
non-negativity constraint is enforced, so a negative value does not fail
request validation (status 422) and is passed through, unchanged, to the
delegated recency lookup. -/
theorem days_param_not_validated (days : Int) (user : Nat)
    (lookup : Option (List Contact)) :
    (route_get_contacts_by_days days user lookup).2
      = [RepoCall.contactsPerDays days user] ∧
    (route_get_contacts_by_days days user lookup).1.statusCode ≠ 422 := by
  cases lookup <;>
    simp [route_get_contacts_by_days, get_contacts_by_days, Response.statusCode]

/-- C1: for the list-contacts operation, whenever the sequence returned by
the delegated lookup (filtered when some filter is truthy, unfiltered
otherwise) is empty, the operation fails with 404 "No contacts found"; and
the operation never returns a 200 empty list. -/
theorem list_contacts_empty_is_404 (db : List Contact)
    (firstname lastname email : Option String) (user : Nat) :
    ((get_contacts db firstname lastname email user).1
        = Response.error 404 "No contacts found" ↔
      (if pyTruthy firstname || pyTruthy lastname || pyTruthy email then
          repo_get_contact_by_filter db user firstname lastname email
        else repo_get_contacts db user) = []) ∧
    (∀ l, (get_contacts db firstname lastname email user).1 = Response.ok 200 l →
      l ≠ []) := by
  unfold get_contacts
  cases hb : (pyTruthy firstname || pyTruthy lastname || pyTruthy email) <;>
    simp only [hb, if_true, if_false, Bool.false_eq_true, Bool.true_eq_false] <;>
    constructor
  · split <;> simp_all [List.isEmpty_iff]
  · intro l hl
    split at hl <;> simp_all [List.isEmpty_iff]
  · split <;> simp_all [List.isEmpty_iff]
  · intro l hl
    split at hl <;> simp_all [List.isEmpty_iff]

/-- C1 witness: a caller with zero contacts (empty store, no filters) gets a
404 "No contacts found", not an empty 200 list. -/
theorem list_contacts_empty_witness :
    (get_contacts [] none none none 1).1 = Response.error 404 "No contacts found" :=
  (list_contacts_empty_is_404 [] none none none 1).1.mpr (by decide)

/-- A concrete contact used by the closed witness statements below. -/
def sampleContact : Contact :=
  { id := 1, owner := 1, firstname := "Ann", lastname := "Bell", email := "ann@x" }

/-- C4: for every valid contact_id reaching the delete handler, successful
deletion (some record has the identifier) answers 204 with no content, and a
missing target answers 404 "Not Found". -/
theorem delete_204_no_content_or_404 (contactId : Int) (db : List Contact)
    (user : Nat) :
    ((∃ c ∈ db, (c.id : Int) = contactId) →
      (remove_contact contactId db user).1 = Response.noContent ∧
      (remove_contact contactId db user).1.statusCode = 204) ∧
    ((¬ ∃ c ∈ db, (c.id : Int) = contactId) →
      (remove_contact contactId db user).1 = Response.error 404 "Not Found") := by
  constructor
  · intro hc
    cases h : db.find? (fun c => (c.id : Int) == contactId) with
    | none =>
        obtain ⟨c, hmem, hid⟩ := hc
        have hn := List.find?_eq_none.mp h c hmem
        simp [hid] at hn
    | some c2 =>
        simp [remove_contact, repo_remove_contact, h, Response.statusCode]
  · intro hn
    have h : db.find? (fun c => (c.id : Int) == contactId) = none := by
      rw [List.find?_eq_none]
      intro x hx
      simp only [beq_iff_eq]
      exact fun hid => hn ⟨x, hx, hid⟩
    simp [remove_contact, repo_remove_contact, h]

/-- C4 witness: deleting the one existing contact answers 204 with no
content; deleting from an empty store answers 404. -/
theorem delete_204_witness :
    (remove_contact 1 [sampleContact] 1).1 = Response.noContent ∧
    (remove_contact 1 [] 1).1 = Response.error 404 "Not Found" :=
  ⟨((delete_204_no_content_or_404 1 [sampleContact] 1).1
      ⟨sampleContact, by decide, by decide⟩).1,
   (delete_204_no_content_or_404 1 [] 1).2 (by decide)⟩

/-- C8: for the get-by-id, update, and delete routes, a contact_id below 1
fails request validation with 422 (distinct from 404) before the handler
body runs: no data-access call is made and the store is unchanged. -/
theorem nonpositive_contact_id_fails_validation (contactId : Int)
    (h : contactId < 1) (body : ContactUpdateModel) (db : List Contact)
    (user : Nat) :
    route_get_contact_by_id contactId db user
      = (Response.error 422 "request validation failed", []) ∧
    route_update_contact body contactId db user
      = (Response.error 422 "request validation failed", db, []) ∧
    route_remove_contact contactId db user
      = (Response.error 422 "request validation failed", db, []) ∧
    (route_get_contact_by_id contactId db user).1.statusCode ≠ 404 := by
  simp [route_get_contact_by_id, route_update_contact, route_remove_contact,
    Response.statusCode, h]

/-- C8 witness: contact_id = 0 is rejected by request validation on all
three routes, with no data-access call. -/
theorem nonpositive_contact_id_witness :
    route_get_contact_by_id 0 [] 1
      = (Response.error 422 "request validation failed", []) ∧
    route_update_contact { firstname := none, lastname := none, email := none }
        0 [] 1 = (Response.error 422 "request validation failed", [], []) ∧
    route_remove_contact 0 [] 1
      = (Response.error 422 "request validation failed", [], []) ∧
    (route_get_contact_by_id 0 [] 1).1.statusCode ≠ 404 :=
  nonpositive_contact_id_fails_validation 0 (by decide)
    { firstname := none, lastname := none, email := none } [] 1

/-- A concrete create payload used by the closed witness statements below. -/
def sampleModel : ContactModel :=
  { firstname := "Ann", lastname := "Bell", email := "ann@x" }

/-- C3: if the caller already owns a contact with the payload's email, create
answers 409 with a detail naming that email, leaves the store unchanged, and
makes no create call; otherwise it delegates to create and answers 201 with
the newly created contact, after the email pre-check. -/
theorem create_conflict_or_created (body : ContactModel) (db : List Contact)
    (user : Nat) :
    ((∃ c ∈ db, c.owner = user ∧ c.email = body.email) →
      (create_contact body db user).1
        = Response.error 409 ("Contact with email:" ++ body.email ++ " already exist!") ∧
      (create_contact body db user).2.1 = db ∧
      (create_contact body db user).2.2
        = [RepoCall.getContactByEmail body.email user]) ∧
    ((¬ ∃ c ∈ db, c.owner = user ∧ c.email = body.email) →
      (create_contact body db user).1
        = Response.ok 201 (repo_create_contact body db user).1 ∧
      (create_contact body db user).2.1 = (repo_create_contact body db user).2 ∧
      (create_contact body db user).2.2
        = [RepoCall.getContactByEmail body.email user,
           RepoCall.createContact body user]) := by
  constructor
  · intro hc
    cases h : repo_get_contact_by_email body.email db user with
    | none =>
        obtain ⟨c, hmem, hown, hem⟩ := hc
        unfold repo_get_contact_by_email at h
        have hn := List.find?_eq_none.mp h c hmem
        simp [hown, hem] at hn
    | some c2 =>
        simp [create_contact, h]
  · intro hn
    have h : repo_get_contact_by_email body.email db user = none := by
      unfold repo_get_contact_by_email
      rw [List.find?_eq_none]
      intro x hx
      simp only [Bool.and_eq_true, beq_iff_eq, not_and]
      exact fun hown hem => absurd ⟨x, hx, hown, hem⟩ hn
    simp [create_contact, h, repo_create_contact]

/-- C3 witness: creating a second contact with the already-present email
answers 409 naming the email and leaves the store unchanged; creating into
an empty store answers 201 with the created contact. -/
theorem create_conflict_witness :
    (create_contact sampleModel [sampleContact] 1).1
      = Response.error 409 ("Contact with email:" ++ sampleModel.email
          ++ " already exist!") ∧
    (create_contact sampleModel [sampleContact] 1).2.1 = [sampleContact] ∧
    (create_contact sampleModel [] 1).1
      = Response.ok 201 (repo_create_contact sampleModel [] 1).1 :=
  ⟨((create_conflict_or_created sampleModel [sampleContact] 1).1
      ⟨sampleContact, by simp, rfl, rfl⟩).1,
   ((create_conflict_or_created sampleModel [sampleContact] 1).1
      ⟨sampleContact, by simp, rfl, rfl⟩).2.1,
   ((create_conflict_or_created sampleModel [] 1).2 (by simp)).1⟩

/-- C6: the delete handler's delegated call carries the contact identifier
only — no caller identity — so its outcome is identical for any two callers;
every call delegated by the other five operations carries the caller's
identity. -/
theorem delete_call_carries_no_identity (contactId : Int) (days : Int)
    (db : List Contact) (u1 u2 user : Nat)
    (firstname lastname email : Option String) (lookup : Option (List Contact))
    (cbody : ContactModel) (ubody : ContactUpdateModel) :
    (remove_contact contactId db user).2.2 = [RepoCall.removeContact contactId] ∧
    RepoCall.identityPassed (RepoCall.removeContact contactId) = none ∧
    remove_contact contactId db u1 = remove_contact contactId db u2 ∧
    ((get_contacts db firstname lastname email user).2.all
      fun call => call.identityPassed == some user) = true ∧
    ((get_contacts_by_days days user lookup).2.all
      fun call => call.identityPassed == some user) = true ∧
    ((get_contact_by_id contactId db user).2.all
      fun call => call.identityPassed == some user) = true ∧
    ((create_contact cbody db user).2.2.all
      fun call => call.identityPassed == some user) = true ∧
    ((update_contact ubody contactId db user).2.2.all
      fun call => call.identityPassed == some user) = true := by
  refine ⟨?_, rfl, rfl, ?_, ?_, ?_, ?_, ?_⟩
  · cases h : repo_remove_contact contactId db with
    | mk c db2 => cases c <;> simp [remove_contact, h]
  · unfold get_contacts
    cases hb : (pyTruthy firstname || pyTruthy lastname || pyTruthy email) <;>
      simp [hb, RepoCall.identityPassed] <;> split <;>
      simp [RepoCall.identityPassed]
  · cases lookup <;> simp [get_contacts_by_days, RepoCall.identityPassed]
  · cases h : repo_get_contact_by_id contactId db user <;>
      simp [get_contact_by_id, h, RepoCall.identityPassed]
  · cases h : repo_get_contact_by_email cbody.email db user <;>
      simp [create_contact, h, repo_create_contact, RepoCall.identityPassed]
  · cases h : repo_update_contact ubody contactId db user with
    | mk c db2 => cases c <;> simp [update_contact, h, RepoCall.identityPassed]

/-- Every contact delivered by the filtered lookup is owned by the caller. -/
theorem mem_filter_lookup_owner (db : List Contact) (user : Nat)
    (firstname lastname email : Option String) (c : Contact)
    (hc : c ∈ repo_get_contact_by_filter db user firstname lastname email) :
    c.owner = user := by
  unfold repo_get_contact_by_filter at hc
  rw [List.mem_filter] at hc
  have h2 := hc.2
  simp only [Bool.and_eq_true, beq_iff_eq] at h2
  exact h2.1.1.1

/-- Every contact delivered by the unfiltered lookup is owned by the caller. -/
theorem mem_all_lookup_owner (db : List Contact) (user : Nat) (c : Contact)
    (hc : c ∈ repo_get_contacts db user) : c.owner = user := by
  unfold repo_get_contacts at hc
  rw [List.mem_filter] at hc
  exact beq_iff_eq.mp hc.2

/-- C7 counterexample: a firstname filter that is present but equal to the
empty string is dispatched to the unfiltered lookup, not the filtered one,
refuting the claim that the presence of any filter selects the filtered
lookup. -/
theorem list_dispatch_counterexample :
    ¬ ((Option.some "").isSome = true →
      (get_contacts [] (some "") none none 7).2
        = [RepoCall.getContactByFilter 7 (some "") none none]) := by
  intro h
  have hd := h rfl
  simp [get_contacts, pyTruthy, repo_get_contacts] at hd

/-- C7 amended: if at least one filter is present with a non-empty (truthy)
value, the handler delegates to the filtered lookup with the caller's
identity; if every filter is absent or empty, it delegates to the unfiltered
lookup with the caller's identity; in both cases every contact of a
successful response is owned by the caller. -/
theorem list_dispatch_and_ownership (db : List Contact)
    (firstname lastname email : Option String) (user : Nat) :
    ((pyTruthy firstname || pyTruthy lastname || pyTruthy email) = true →
      (get_contacts db firstname lastname email user).2
        = [RepoCall.getContactByFilter user firstname lastname email]) ∧
    ((pyTruthy firstname || pyTruthy lastname || pyTruthy email) = false →
      (get_contacts db firstname lastname email user).2
        = [RepoCall.getContacts user]) ∧
    (∀ l, (get_contacts db firstname lastname email user).1 = Response.ok 200 l →
      ∀ c ∈ l, c.owner = user) := by
  refine ⟨?_, ?_, ?_⟩
  · intro hb
    unfold get_contacts
    simp only [hb, if_true]
    split <;> rfl
  · intro hb
    unfold get_contacts
    simp only [hb, Bool.false_eq_true, if_false]
    split <;> rfl
  · intro l hl c hc
    unfold get_contacts at hl
    cases hb : (pyTruthy firstname || pyTruthy lastname || pyTruthy email) <;>
      simp only [hb, Bool.false_eq_true, if_true, if_false] at hl
    · split at hl
      · exact absurd hl (by simp)
      · simp only [Response.ok.injEq] at hl
        obtain ⟨-, rfl⟩ := hl
        exact mem_all_lookup_owner db user c hc
    · split at hl
      · exact absurd hl (by simp)
      · simp only [Response.ok.injEq] at hl
        obtain ⟨-, rfl⟩ := hl
        exact mem_filter_lookup_owner db user firstname lastname email c hc

/-- C7 witness: a truthy firstname filter is dispatched to the filtered
lookup carrying the caller's identity, and a successful unfiltered listing
of a one-contact store yields only contacts owned by the caller. -/
theorem list_dispatch_witness :
    (get_contacts [sampleContact] (some "Ann") none none 1).2
      = [RepoCall.getContactByFilter 1 (some "Ann") none none] ∧
    (get_contacts [sampleContact] none none none 1).2
      = [RepoCall.getContacts 1] ∧
    sampleContact.owner = 1 :=
  ⟨(list_dispatch_and_ownership [sampleContact] (some "Ann") none none 1).1
      (by decide),
   (list_dispatch_and_ownership [sampleContact] none none none 1).2.1 rfl,
   (list_dispatch_and_ownership [sampleContact] none none none 1).2.2
      [sampleContact] (by decide) sampleContact (by simp)⟩

/-- C9: every one of the six routes declares the quota of 2 invocations per
5-second window; three requests by the same identity to the same route
within one 5-second window leave the third rejected by the sliding-window
counter, and a rejected request aborts with 429 before the handler body runs
(no data-access call). -/
theorem rate_limit_third_request_rejected (route : RouteName) (t1 t2 t3 : Nat)
    (h12 : t1 ≤ t2) (h23 : t2 ≤ t3) (hwin : t3 - t1 < 5) :
    rateLimiterOf route = { times := 2, seconds := 5 } ∧
    rateLimitAllows (rateLimiterOf route) [t1, t2] t3 = false ∧
    (∀ handler : Response (List Contact) × List RepoCall,
      gated true (rateLimitAllows (rateLimiterOf route) [t1, t2] t3) handler
        = (Response.error 429 "Too Many Requests", [])) := by
  have hq : rateLimiterOf route = { times := 2, seconds := 5 } := by
    cases route <;> rfl
  have h13 : t1 ≤ t3 := le_trans h12 h23
  have hw2 : t3 - t2 < 5 := by omega
  have hallow : rateLimitAllows (rateLimiterOf route) [t1, t2] t3 = false := by
    rw [hq]
    unfold rateLimitAllows
    rw [List.filter_cons_of_pos (by simp [h13, hwin]),
      List.filter_cons_of_pos (by simp [h23, hw2]), List.filter_nil]
    simp
  exact ⟨hq, hallow, fun handler => by rw [hallow]; rfl⟩

/-- C9 witness: requests at seconds 0, 1 and 4 to the list route by one
identity: the third is rejected and aborts with 429 without running the
handler. -/
theorem rate_limit_witness :
    rateLimitAllows (rateLimiterOf RouteName.listContacts) [0, 1] 4 = false ∧
    gated true (rateLimitAllows (rateLimiterOf RouteName.listContacts) [0, 1] 4)
        (Response.ok 200 ([] : List Contact), ([] : List RepoCall))
      = (Response.error 429 "Too Many Requests", []) :=
  ⟨(rate_limit_third_request_rejected RouteName.listContacts 0 1 4
      (by decide) (by decide) (by decide)).2.1,
   (rate_limit_third_request_rejected RouteName.listContacts 0 1 4
      (by decide) (by decide) (by decide)).2.2
      (Response.ok 200 ([] : List Contact), ([] : List RepoCall))⟩

/-- C10 witness: a negative days value (-3) reaches the delegated lookup and
is not rejected by request validation. -/
theorem days_param_witness :
    (route_get_contacts_by_days (-3) 1 (some [])).2
      = [RepoCall.contactsPerDays (-3) 1] ∧
    (route_get_contacts_by_days (-3) 1 (some [])).1.statusCode ≠ 422 :=
  days_param_not_validated (-3) 1 (some [])

end ContactRoutes
